import Mathlib

/-!
# PurePod (PodcastPurifier) — shallow embedding and verification

Shallow embedding of the manager service (`src/manager/src/main.py`,
`models.py`, `tasks.py`) and the worker (`src/worker/main.py`) of the
PurePod repository, together with theorems settling the specification
claims about the episode lifecycle, the completion callback, the RSS
publisher, the progress broadcaster and the worker retry policy.

Conventions of the embedding:
* Database rows (`Feed`, `Episode`) become Lean structures; the database
  session becomes an explicit `DB` value (lists of rows).  `session.get`
  becomes `List.find?` on the primary key, `session.add` + `commit`
  becomes a functional row update.
* Timestamps become `Nat` (only their ordering/equality matters here).
* Endpoints raising `HTTPException` become functions into `Except`.
* External effects (Celery dispatch, file-system writes, WebSocket
  sends) are modelled by boolean-valued oracles passed as parameters:
  `dispatchOk`, `writeOk`, `sendOk`.
-/

namespace PurePod

/-- The five members of `EpisodeStatus` exactly as defined by
`src/manager/src/models.py` (lines 8–13): pairs of (member name, string
value) of the Python `str` enum.  Note that `main.py` additionally
references a member named `IGNORED`, which is absent from this list. -/
def episodeStatusMembers : List (String × String) :=
  [("DISCOVERED", "discovered"),
   ("QUEUED", "queued"),
   ("PROCESSING", "processing"),
   ("CLEANED", "cleaned"),
   ("FAILED", "failed")]

/-- Python attribute lookup `EpisodeStatus.<name>` on the enum of
`models.py`: returns the member's string value, or `none` when the
attribute access would raise `AttributeError`. -/
def episodeStatusLookup (name : String) : Option String :=
  (episodeStatusMembers.find? (fun p => p.1 == name)).map (fun p => p.2)

/-- Episode status as used by the handlers in `src/manager/src/main.py`.
`main.py` works with the five members of `models.py` plus a member
`IGNORED` (used at lines 389, 401, 460–461, 480–481) that `models.py`
does not actually define — see `episodeStatusLookup` and claim C2.  The
embedding includes the `ignored` constructor so the handlers' bodies can
be expressed as written. -/
inductive EpisodeStatus where
  | discovered
  | queued
  | processing
  | cleaned
  | failed
  | ignored
deriving DecidableEq, Repr

/-- The `Feed` row (`src/manager/src/models.py`, lines 16–26). -/
structure Feed where
  id : Nat
  title : String
  rss_url : String
  auto_process : Bool
  created_at : Nat
  updated_at : Nat
deriving DecidableEq, Repr

/-- The `Episode` row (`src/manager/src/models.py`, lines 29–45). -/
structure Episode where
  id : Nat
  feed_id : Nat
  guid : String
  status : EpisodeStatus
  title : String
  audio_url : String
  local_filename : Option String
  created_at : Nat
  updated_at : Nat
deriving DecidableEq, Repr

/-- The database state: the `feeds` and `episodes` tables. -/
structure DB where
  feeds : List Feed
  episodes : List Episode
deriving DecidableEq, Repr

/-- Embedding of `session.get(Feed, feed_id)`. -/
def getFeed (db : DB) (feed_id : Nat) : Option Feed :=
  db.feeds.find? (fun f => f.id == feed_id)

/-- Embedding of `session.get(Episode, episode_id)`. -/
def getEp (db : DB) (episode_id : Nat) : Option Episode :=
  db.episodes.find? (fun e => e.id == episode_id)

/-- Embedding of `session.add(episode)` followed by `commit` for a row loaded from the
table: the row with the episode's id is replaced by the updated value. -/
def updateEpisode (db : DB) (ep : Episode) : DB :=
  { db with episodes := db.episodes.map (fun x => if x.id == ep.id then ep else x) }

theorem getEp_updateEpisode (db : DB) (ep : Episode) (i : Nat) :
    getEp (updateEpisode db ep) i =
      (getEp db i).map (fun x => if x.id == ep.id then ep else x) := by
  unfold getEp updateEpisode
  simp only [List.find?_map]
  have hcongr : (fun x : Episode => (fun e : Episode => e.id == i) ((fun x => if x.id == ep.id then ep else x) x))
      = fun x : Episode => x.id == i := by
    funext x
    by_cases h : x.id = ep.id
    · simp [h]
    · simp [h]
  rw [show ((fun e : Episode => e.id == i) ∘ fun x => if x.id == ep.id then ep else x)
        = fun x : Episode => x.id == i from hcongr]

theorem getEp_updateEpisode_ne (db : DB) (ep : Episode) (i : Nat) (h : ep.id ≠ i) :
    getEp (updateEpisode db ep) i = getEp db i := by
  rw [getEp_updateEpisode]
  cases hfind : getEp db i with
  | none => rfl
  | some x =>
    have hx : x.id = i := by
      have := List.find?_some hfind
      simpa using this
    simp [hx, Ne.symm h]

theorem getEp_updateEpisode_self (db : DB) (ep : Episode) (x : Episode)
    (hfind : getEp db ep.id = some x) :
    getEp (updateEpisode db ep) ep.id = some ep := by
  rw [getEp_updateEpisode, hfind]
  have hx : x.id = ep.id := by
    have := List.find?_some hfind
    simpa using this
  simp [hx]

/-! ## Bulk episode operations (`main.py` lines 450–521) -/

/-- Loop body of `ignore_episodes` (`main.py` lines 458–464): the state
is (database, `ignored_count`).  An episode found in `DISCOVERED` or
`FAILED` status is set to `IGNORED` with a fresh `updated_at`. -/
def ignoreStep (now : Nat) (s : DB × Nat) (episode_id : Nat) : DB × Nat :=
  match getEp s.1 episode_id with
  | some episode =>
    if episode.status = .discovered ∨ episode.status = .failed then
      (updateEpisode s.1 { episode with status := .ignored, updated_at := now }, s.2 + 1)
    else s
  | none => s

/-- Embedding of `ignore_episodes` (`main.py` lines 450–467): returns the
committed database and the `ignored` count of the response. -/
def ignore_episodes (db : DB) (episode_ids : List Nat) (now : Nat) : DB × Nat :=
  episode_ids.foldl (ignoreStep now) (db, 0)

/-- Loop body of `unignore_episodes` (`main.py` lines 478–484): an
episode found in `IGNORED` status is restored to `DISCOVERED`. -/
def unignoreStep (now : Nat) (s : DB × Nat) (episode_id : Nat) : DB × Nat :=
  match getEp s.1 episode_id with
  | some episode =>
    if episode.status = .ignored then
      (updateEpisode s.1 { episode with status := .discovered, updated_at := now }, s.2 + 1)
    else s
  | none => s

/-- Embedding of `unignore_episodes` (`main.py` lines 470–487): returns
the committed database and the `restored` count of the response. -/
def unignore_episodes (db : DB) (episode_ids : List Nat) (now : Nat) : DB × Nat :=
  episode_ids.foldl (unignoreStep now) (db, 0)

/-- Accumulated state of the `queue_episodes` loop: the database, the
`queued_count`, and `dispatched_tasks` (recorded by episode id). -/
structure QueueState where
  db : DB
  queued : Nat
  tasks : List Nat
deriving DecidableEq, Repr

/-- Loop body of `queue_episodes` (`main.py` lines 504–517).  An episode
found in `DISCOVERED` or `FAILED` status is set to `QUEUED`; then
`dispatch_episode_processing` is attempted.  `dispatchOk episode_id`
tells whether the Celery `send_task` succeeds; when it raises, the
exception is caught and only logged (`main.py` lines 516–517) — the
episode's status is left as just written, i.e. `QUEUED`. -/
def queueStep (dispatchOk : Nat → Bool) (now : Nat) (s : QueueState) (episode_id : Nat) :
    QueueState :=
  match getEp s.db episode_id with
  | some episode =>
    if episode.status = .discovered ∨ episode.status = .failed then
      let s1 : QueueState :=
        { s with
          db := updateEpisode s.db { episode with status := .queued, updated_at := now },
          queued := s.queued + 1 }
      if dispatchOk episode_id then { s1 with tasks := s1.tasks ++ [episode_id] } else s1
    else s
  | none => s

/-- Embedding of `queue_episodes` (`main.py` lines 490–521). -/
def queue_episodes (dispatchOk : Nat → Bool) (db : DB) (episode_ids : List Nat) (now : Nat) :
    QueueState :=
  episode_ids.foldl (queueStep dispatchOk now) ⟨db, 0, []⟩

/-! ## Completion callback (`main.py` lines 124–176, `upload_cleaned_audio`) -/

/-- Error responses of `upload_cleaned_audio`: 404 unknown episode, 400
for a name not ending in `.mp3` ("Only MP3 files are accepted"), 500
when writing the file to disk fails. -/
inductive UploadError where
  | notFound
  | notMp3
  | saveFailed
deriving DecidableEq, Repr

/-- Embedding of Python's `str.endswith`, computed on the character
list (the byte-offset implementation of `String.endsWith` does not
reduce in the kernel). -/
def strEndsWith (s suffix : String) : Bool :=
  suffix.data.isSuffixOf s.data

/-- Embedding of Python's `str.replace` for a one-character pattern, as
used by `file.filename.replace('/', '_')`: every occurrence of the
character is substituted. -/
def replaceChar (s : String) (pat rep : Char) : String :=
  ⟨s.data.map (fun c => if c = pat then rep else c)⟩

/-- Embedding of `safe_filename = f"{episode_id}_{file.filename.replace('/', '_')}"`
(`main.py` line 146). -/
def safeFilename (episode_id : Nat) (filename : String) : String :=
  toString episode_id ++ "_" ++ replaceChar filename '/' '_' 

/-- The path stored in `local_filename` (`main.py` lines 143–147, 157):
`file_path = AUDIO_STORAGE_PATH / str(feed_id) / safe_filename` made
relative to `AUDIO_STORAGE_PATH`. -/
def localFilenameFor (feed_id episode_id : Nat) (filename : String) : String :=
  toString feed_id ++ "/" ++ safeFilename episode_id filename

/-- Embedding of `upload_cleaned_audio` (`main.py` lines 124–176).
`filename` is `file.filename` (the empty string standing for a missing
name), `content_type` is the upload's media type — a parameter the
handler receives but never consults — and `writeOk` tells whether the
`aiofiles` write succeeds.  On success the episode gets
`local_filename` set and status `CLEANED`, and the response echoes the
stored `local_filename`. -/
def upload_cleaned_audio (db : DB) (episode_id : Nat) (filename : String)
    (content_type : String) (writeOk : Bool) (now : Nat) :
    Except UploadError (DB × String) :=
  match getEp db episode_id with
  | none => .error .notFound
  | some episode =>
    if filename = "" ∨ ¬ strEndsWith filename ".mp3" then .error .notMp3
    else if ¬ writeOk then .error .saveFailed
    else
      let local_filename := localFilenameFor episode.feed_id episode_id filename
      .ok (updateEpisode db
             { episode with
               local_filename := some local_filename,
               status := .cleaned,
               updated_at := now },
           local_filename)

/-! ## Feed creation, ingestion and deletion (`main.py` lines 179–287) -/

/-- The metadata dict returned by `extract_feed_metadata` (`ingest.py`,
used at `main.py` lines 190–202): title plus optional fields. -/
structure FeedMeta where
  title : String
  description : Option String
  image_url : Option String
  author : Option String
deriving DecidableEq, Repr

/-- One item of the upstream feed document, as consumed by ingestion. -/
structure IngestItem where
  guid : String
  title : String
  audio_url : String
deriving DecidableEq, Repr

/-- Modelled from the spec: `src/manager/src/ingest.py` (imported by
`main.py` for `ingest_feed`) is not among the provided source files.
Spec §4.2: for each item of the document, if an episode with that `guid`
already exists under the feed it is left untouched (idempotent no-op);
otherwise a new episode is created in `DISCOVERED` state — with no local
artifact, per the `models.py` defaults `status = DISCOVERED`,
`local_filename = None` — and the list of newly created episodes is
returned.  Fresh episode ids are allocated sequentially from `nextId`. -/
def ingest_feed (feed_id : Nat) (items : List IngestItem) (nextId : Nat)
    (now : Nat) (db : DB) : DB × List Episode :=
  items.foldl
    (fun (s : DB × List Episode) item =>
      if s.1.episodes.any (fun e => e.feed_id == feed_id && e.guid == item.guid) then s
      else
        let ep : Episode :=
          { id := nextId + s.2.length, feed_id := feed_id, guid := item.guid,
            status := .discovered, title := item.title,
            audio_url := item.audio_url, local_filename := none,
            created_at := now, updated_at := now }
        ({ s.1 with episodes := s.1.episodes ++ [ep] }, s.2 ++ [ep]))
    (db, [])

/-- Error responses of `create_feed`: duplicate `rss_url` (400) or
unparsable feed metadata (400). -/
inductive CreateFeedError where
  | duplicateUrl
  | unparsable
deriving DecidableEq, Repr

/-- Embedding of `create_feed` (`main.py` lines 179–215).  `metadata`
is the result of `extract_feed_metadata` (`none` when parsing fails);
`ingestResult` is the behaviour of the auto-ingest call: `.error ()`
when `ingest_feed` raises — in which case `main.py` lines 209–213 catch
and only log the exception, still returning the committed feed — and
`.ok items` when it succeeds on the listed document items.  `newFeedId`
is the id the store assigns to the inserted feed row and
`newEpisodeBase` the first free episode id. -/
def create_feed (db : DB) (rss_url : String) (metadata : Option FeedMeta)
    (ingestResult : Except Unit (List IngestItem)) (newFeedId newEpisodeBase now : Nat) :
    Except CreateFeedError (DB × Feed) :=
  if db.feeds.any (fun f => f.rss_url == rss_url) then .error .duplicateUrl
  else
    match metadata with
    | none => .error .unparsable
    | some m =>
      let feed : Feed :=
        { id := newFeedId, title := m.title ++ " (Purified)", rss_url := rss_url,
          auto_process := false, created_at := now, updated_at := now }
      let db1 : DB := { db with feeds := db.feeds ++ [feed] }
      match ingestResult with
      | .error _ => .ok (db1, feed)
      | .ok items => .ok ((ingest_feed newFeedId items newEpisodeBase now db1).1, feed)

/-- Embedding of `delete_feed` (`main.py` lines 245–271): deletes all of
the feed's episodes, then the feed, in one transaction; responds with
the deleted-episode count; 404 when the feed id is unknown. -/
def delete_feed (db : DB) (feed_id : Nat) : Except Unit (DB × Nat) :=
  match getFeed db feed_id with
  | none => .error ()
  | some _ =>
    .ok ({ feeds := db.feeds.filter (fun f => ¬ f.id == feed_id),
           episodes := db.episodes.filter (fun e => ¬ e.feed_id == feed_id) },
         (db.episodes.filter (fun e => e.feed_id == feed_id)).length)

/-! ## RSS publisher (`main.py` lines 290–343, `get_feed_rss`) -/

/-- Default of `PUBLIC_HOSTNAME` (`src/manager/src/config.py`). -/
def PUBLIC_HOSTNAME : String := "localhost"

/-- Public URL of a stored artifact (`main.py` line 333):
`f"https://{PUBLIC_HOSTNAME}/files/{episode.local_filename}"`. -/
def fileUrl (local_filename : String) : String :=
  "https://" ++ PUBLIC_HOSTNAME ++ "/files/" ++ local_filename

/-- One `item` element of the generated RSS document (`main.py` lines
325–340): title, guid, `pubDate` (the episode's `updated_at`), and the
enclosure's url and type. -/
structure RssItem where
  title : String
  guid : String
  pubDate : Nat
  enclosure_url : String
  enclosure_type : String
deriving DecidableEq, Repr

/-- The `episodes` query of `get_feed_rss` (`main.py` lines 303–308):
episodes of the feed with status `CLEANED`, ordered by `created_at`
descending. -/
def rssEpisodes (db : DB) (feed_id : Nat) : List Episode :=
  (db.episodes.filter
      (fun e => e.feed_id == feed_id && e.status == EpisodeStatus.cleaned)).mergeSort
    (fun a b => decide (b.created_at ≤ a.created_at))

/-- The `item` built for one episode from its `local_filename`
(`main.py` lines 325–340). -/
def rssItemFor (e : Episode) (fn : String) : RssItem :=
  { title := e.title, guid := e.guid, pubDate := e.updated_at,
    enclosure_url := fileUrl fn, enclosure_type := "audio/mpeg" }

/-- Embedding of `get_feed_rss` (`main.py` lines 290–343): 404 for an
unknown feed id; otherwise the item list of the generated document —
one item per episode of the `rssEpisodes` query, skipping episodes
whose `local_filename` is unset (`main.py` lines 322–323). -/
def get_feed_rss (db : DB) (feed_id : Nat) : Except Unit (List RssItem) :=
  match getFeed db feed_id with
  | none => .error ()
  | some _ =>
    .ok ((rssEpisodes db feed_id).filterMap
          (fun e => e.local_filename.map (rssItemFor e)))

/-! ## Progress broadcaster (`main.py` lines 27–51, `ConnectionManager`) -/

/-- Result of `ConnectionManager.broadcast`: the connection set after
`self.active_connections -= disconnected`, and the connections whose
`send_json` succeeded (those that received the message). -/
structure BroadcastResult where
  active_connections : List Nat
  delivered : List Nat
deriving DecidableEq, Repr

/-- Embedding of `ConnectionManager.broadcast` (`main.py` lines 40–48).
Connections are identified by `Nat`; `sendOk c = true` means
`connection.send_json(message)` succeeds for `c`, `false` that it
raises.  The loop tries every connection, collecting the failing ones in
`disconnected`, and afterwards removes exactly those from the set; every
per-connection exception is caught, so the function is total and nothing
propagates to the caller. -/
def broadcast (sendOk : Nat → Bool) (active_connections : List Nat) : BroadcastResult :=
  let loop := active_connections.foldl
    (fun (acc : List Nat × List Nat) c =>
      if sendOk c then (acc.1 ++ [c], acc.2) else (acc.1, acc.2 ++ [c]))
    ([], [])
  { active_connections := active_connections.filter (fun c => ¬ loop.2.contains c),
    delivered := loop.1 }

/-! ## Worker retry policy (`src/worker/main.py`, `process_episode`) -/

/-- Retry bound of `process_episode` (`worker/main.py` line 133):
`self.retry(exc=e, countdown=60, max_retries=3)`. -/
def max_retries : Nat := 3

/-- Fixed backoff countdown of the same `self.retry` call, in seconds. -/
def retry_countdown : Nat := 60

/-- Outcome of one execution attempt of `worker.process_episode`:
either every step (download, processing, upload) completes, or a
`requests.RequestException` is raised by a network step
(`worker/main.py` line 130), or some other exception is raised
(line 135). -/
inductive AttemptOutcome where
  | success
  | networkError
  | otherError
deriving DecidableEq, Repr

/-- Final outcome of the task across retries. -/
inductive TaskResult where
  | succeeded
  | failed
deriving DecidableEq, Repr

/-- Observable trace of a task execution: number of attempts made, the
backoff countdowns of the retries in order, the number of
`report_progress(episode_id, 0, "failed")` events emitted, and the
final result. -/
structure TaskTrace where
  attempts : Nat
  delays : List Nat
  failedEvents : Nat
  result : TaskResult
deriving DecidableEq, Repr

/-- Execution of `process_episode` starting at Celery retry count `r`
(`self.request.retries = r`), where `f k` is the outcome of the attempt
executed with retry count `k`.  On `success` the task returns its result
dict.  On a network error the handler reports a `(0, "failed")` progress
event and calls `self.retry(countdown=60, max_retries=3)`: Celery
re-executes the task with retry count `r + 1` when `r < max_retries`
and otherwise re-raises, surfacing failure.  On any other error the
handler reports `(0, "failed")` and re-raises immediately, without
retrying. -/
def runFrom (f : Nat → AttemptOutcome) (r : Nat) : TaskTrace :=
  match f r with
  | .success => { attempts := 1, delays := [], failedEvents := 0, result := .succeeded }
  | .otherError => { attempts := 1, delays := [], failedEvents := 1, result := .failed }
  | .networkError =>
    if _h : r < max_retries then
      { attempts := (runFrom f (r + 1)).attempts + 1,
        delays := retry_countdown :: (runFrom f (r + 1)).delays,
        failedEvents := (runFrom f (r + 1)).failedEvents + 1,
        result := (runFrom f (r + 1)).result }
    else { attempts := 1, delays := [], failedEvents := 1, result := .failed }
termination_by max_retries - r

/-- A fresh delivery of a `worker.process_episode` task starts with
retry count 0. -/
def process_episode_run (f : Nat → AttemptOutcome) : TaskTrace :=
  runFrom f 0

/-! ## The state-changing operations of the manager, as one step type -/

/-- The state-changing operations of the manager API that touch episode
rows: feed creation (with its auto-ingestion pass), bulk queue, bulk
ignore, bulk un-ignore, the completion callback, and feed deletion.
The constructors carry the request data and the effect oracles of the
corresponding endpoint embeddings. -/
inductive Op where
  | createFeed (rss_url : String) (metadata : Option FeedMeta)
      (ingestResult : Except Unit (List IngestItem)) (newFeedId newEpisodeBase now : Nat)
  | queue (dispatchOk : Nat → Bool) (episode_ids : List Nat) (now : Nat)
  | ignore (episode_ids : List Nat) (now : Nat)
  | unignore (episode_ids : List Nat) (now : Nat)
  | upload (episode_id : Nat) (filename content_type : String) (writeOk : Bool) (now : Nat)
  | deleteFeed (feed_id : Nat)

/-- The database reached by an operation: the committed state on
success, the unchanged database when the endpoint rejects the request
(an `HTTPException` aborts the handler before any commit). -/
def applyOp (op : Op) (db : DB) : DB :=
  match op with
  | .createFeed url md ing fid base now =>
    match create_feed db url md ing fid base now with
    | .ok r => r.1
    | .error _ => db
  | .queue dOk ids now => (queue_episodes dOk db ids now).db
  | .ignore ids now => (ignore_episodes db ids now).1
  | .unignore ids now => (unignore_episodes db ids now).1
  | .upload i fn ct ok now =>
    match upload_cleaned_audio db i fn ct ok now with
    | .ok r => r.1
    | .error _ => db
  | .deleteFeed fid =>
    match delete_feed db fid with
    | .ok r => r.1
    | .error _ => db

/-- The artifact invariant of the spec: an episode's `local_filename`
is set exactly when its status is `CLEANED`. -/
def artifactInv (db : DB) : Prop :=
  ∀ e ∈ db.episodes, e.local_filename.isSome ↔ e.status = .cleaned

instance (db : DB) : Decidable (artifactInv db) := by
  unfold artifactInv; infer_instance

/-! ## Helper lemmas -/

theorem getEp_mem (db : DB) (i : Nat) (e : Episode) (h : getEp db i = some e) :
    e ∈ db.episodes ∧ e.id = i := by
  refine ⟨List.mem_of_find?_eq_some h, ?_⟩
  have := List.find?_some h
  simpa using this

/-- The database component of one `queue_episodes` loop iteration,
with the dispatch attempt (which never touches the database) folded
away. -/
theorem queueStep_db (dispatchOk : Nat → Bool) (now : Nat) (s : QueueState) (episode_id : Nat) :
    (queueStep dispatchOk now s episode_id).db =
      match getEp s.db episode_id with
      | some episode =>
        if episode.status = .discovered ∨ episode.status = .failed then
          updateEpisode s.db { episode with status := .queued, updated_at := now }
        else s.db
      | none => s.db := by
  unfold queueStep
  cases getEp s.db episode_id with
  | none => rfl
  | some ep =>
    by_cases h : ep.status = .discovered ∨ ep.status = .failed
    · simp only [h, if_true]
      cases dispatchOk episode_id <;> rfl
    · simp only [h, if_false]

/-- A `queue_episodes` iteration for a different episode id does not
touch a given row. -/
theorem queueStep_other (dispatchOk : Nat → Bool) (now : Nat) (s : QueueState)
    (episode_id i : Nat) (hne : episode_id ≠ i) :
    getEp (queueStep dispatchOk now s episode_id).db i = getEp s.db i := by
  rw [queueStep_db]
  cases hf : getEp s.db episode_id with
  | none => rfl
  | some ep =>
    by_cases h : ep.status = .discovered ∨ ep.status = .failed
    · simp only [h, if_true]
      exact getEp_updateEpisode_ne _ _ _ (by rw [(getEp_mem _ _ _ hf).2]; exact hne)
    · simp only [h, if_false]

/-- A `queue_episodes` iteration leaves a row unchanged when its status
is not `DISCOVERED` or `FAILED`. -/
theorem queueStep_not_eligible (dispatchOk : Nat → Bool) (now : Nat) (s : QueueState)
    (episode_id i : Nat) (e : Episode) (hf : getEp s.db i = some e)
    (hs : ¬(e.status = .discovered ∨ e.status = .failed)) :
    getEp (queueStep dispatchOk now s episode_id).db i = some e := by
  by_cases hne : episode_id = i
  · subst hne
    rw [queueStep_db, hf]
    simp only [hs, if_false]
    exact hf
  · rw [queueStep_other _ _ _ _ _ hne]
    exact hf

/-- A `queue_episodes` iteration on an eligible row sets it to
`QUEUED`. -/
theorem queueStep_eligible (dispatchOk : Nat → Bool) (now : Nat) (s : QueueState)
    (i : Nat) (e : Episode) (hf : getEp s.db i = some e)
    (hs : e.status = .discovered ∨ e.status = .failed) :
    getEp (queueStep dispatchOk now s i).db i =
      some { e with status := .queued, updated_at := now } := by
  rw [queueStep_db, hf]
  simp only [hs, if_true]
  have hid : ({ e with status := EpisodeStatus.queued, updated_at := now } : Episode).id = i :=
    (getEp_mem _ _ _ hf).2
  rw [← hid] at hf ⊢
  exact getEp_updateEpisode_self _ _ _ hf

theorem queue_foldl_not_eligible (dispatchOk : Nat → Bool) (now i : Nat) (e : Episode)
    (hs : ¬(e.status = .discovered ∨ e.status = .failed)) :
    ∀ (ids : List Nat) (s : QueueState), getEp s.db i = some e →
      getEp (ids.foldl (queueStep dispatchOk now) s).db i = some e := by
  intro ids
  induction ids with
  | nil => intro s hf; exact hf
  | cons id rest ih =>
    intro s hf
    exact ih _ (queueStep_not_eligible _ _ _ _ _ _ hf hs)

theorem queue_foldl_eligible (dispatchOk : Nat → Bool) (now i : Nat) (e : Episode)
    (hs : e.status = .discovered ∨ e.status = .failed) :
    ∀ (ids : List Nat) (s : QueueState), getEp s.db i = some e → i ∈ ids →
      getEp (ids.foldl (queueStep dispatchOk now) s).db i =
        some { e with status := .queued, updated_at := now } := by
  intro ids
  induction ids with
  | nil => intro _ _ hmem; cases hmem
  | cons id rest ih =>
    intro s hf hmem
    by_cases hid : id = i
    · subst hid
      have h1 := queueStep_eligible dispatchOk now s id e hf hs
      exact queue_foldl_not_eligible dispatchOk now id _ (by simp) rest _ h1
    · rcases List.mem_cons.mp hmem with h | h
      · exact absurd h.symm hid
      · have h1 : getEp (queueStep dispatchOk now s id).db i = some e := by
          rw [queueStep_other _ _ _ _ _ hid]; exact hf
        exact ih _ h1 h

/-- An `ignore_episodes` iteration leaves a row unchanged when its
status is not `DISCOVERED` or `FAILED`. -/
theorem ignoreStep_not_eligible (now : Nat) (s : DB × Nat) (episode_id i : Nat)
    (e : Episode) (hf : getEp s.1 i = some e)
    (hs : ¬(e.status = .discovered ∨ e.status = .failed)) :
    getEp (ignoreStep now s episode_id).1 i = some e := by
  unfold ignoreStep
  cases hfind : getEp s.1 episode_id with
  | none => exact hf
  | some ep =>
    by_cases hc : ep.status = .discovered ∨ ep.status = .failed
    · simp only [hc, if_true]
      have hne : ep.id ≠ i := by
        intro hcontra
        rw [(getEp_mem _ _ _ hfind).2] at hcontra
        subst hcontra
        rw [hf] at hfind
        cases hfind
        exact hs hc
      have hrw := getEp_updateEpisode_ne s.1
        { ep with status := EpisodeStatus.ignored, updated_at := now } i hne
      rw [hrw]
      exact hf
    · simp only [hc, if_false]
      exact hf

theorem ignore_foldl_not_eligible (now i : Nat) (e : Episode)
    (hs : ¬(e.status = .discovered ∨ e.status = .failed)) :
    ∀ (ids : List Nat) (s : DB × Nat), getEp s.1 i = some e →
      getEp (ids.foldl (ignoreStep now) s).1 i = some e := by
  intro ids
  induction ids with
  | nil => intro s hf; exact hf
  | cons id rest ih =>
    intro s hf
    exact ih _ (ignoreStep_not_eligible _ _ _ _ _ hf hs)

/-- An `unignore_episodes` iteration leaves a row unchanged when its
status is not `IGNORED`. -/
theorem unignoreStep_not_eligible (now : Nat) (s : DB × Nat) (episode_id i : Nat)
    (e : Episode) (hf : getEp s.1 i = some e) (hs : e.status ≠ .ignored) :
    getEp (unignoreStep now s episode_id).1 i = some e := by
  unfold unignoreStep
  cases hfind : getEp s.1 episode_id with
  | none => exact hf
  | some ep =>
    by_cases hc : ep.status = .ignored
    · simp only [hc, if_true]
      have hne : ep.id ≠ i := by
        intro hcontra
        rw [(getEp_mem _ _ _ hfind).2] at hcontra
        subst hcontra
        rw [hf] at hfind
        cases hfind
        exact hs hc
      have hrw := getEp_updateEpisode_ne s.1
        { ep with status := EpisodeStatus.discovered, updated_at := now } i hne
      rw [hrw]
      exact hf
    · simp only [hc, if_false]
      exact hf

theorem unignore_foldl_not_eligible (now i : Nat) (e : Episode) (hs : e.status ≠ .ignored) :
    ∀ (ids : List Nat) (s : DB × Nat), getEp s.1 i = some e →
      getEp (ids.foldl (unignoreStep now) s).1 i = some e := by
  intro ids
  induction ids with
  | nil => intro s hf; exact hf
  | cons id rest ih =>
    intro s hf
    exact ih _ (unignoreStep_not_eligible _ _ _ _ _ hf hs)

/-! ## Preservation of the artifact invariant -/

/-- The per-row artifact property. -/
def artifactRow (e : Episode) : Prop :=
  e.local_filename.isSome ↔ e.status = .cleaned

theorem artifactInv_updateEpisode (db : DB) (ep : Episode)
    (hinv : artifactInv db) (hep : artifactRow ep) :
    artifactInv (updateEpisode db ep) := by
  intro e he
  unfold updateEpisode at he
  simp only [List.mem_map] at he
  obtain ⟨x, hx, rfl⟩ := he
  by_cases h : x.id = ep.id
  · simpa [h] using hep
  · simpa [h] using hinv x hx

/-- A row in `DISCOVERED` or `FAILED` status has no artifact, by the
invariant. -/
theorem no_artifact_of_not_cleaned (db : DB) (hinv : artifactInv db) (e : Episode)
    (he : e ∈ db.episodes) (hs : e.status ≠ .cleaned) :
    e.local_filename.isSome = false := by
  cases hlf : e.local_filename.isSome
  · rfl
  · exact absurd ((hinv e he).mp (by rw [hlf])) hs

theorem artifactInv_ignoreStep (now : Nat) (s : DB × Nat) (episode_id : Nat)
    (h : artifactInv s.1) : artifactInv (ignoreStep now s episode_id).1 := by
  unfold ignoreStep
  cases hf : getEp s.1 episode_id with
  | none => exact h
  | some ep =>
    by_cases hc : ep.status = .discovered ∨ ep.status = .failed
    · simp only [hc, if_true]
      apply artifactInv_updateEpisode _ _ h
      have hnc : ep.status ≠ .cleaned := by rcases hc with h1 | h1 <;> simp [h1]
      have hlf := no_artifact_of_not_cleaned s.1 h ep (getEp_mem _ _ _ hf).1 hnc
      unfold artifactRow
      simp [hlf]
    · simp only [hc, if_false]
      exact h

theorem artifactInv_unignoreStep (now : Nat) (s : DB × Nat) (episode_id : Nat)
    (h : artifactInv s.1) : artifactInv (unignoreStep now s episode_id).1 := by
  unfold unignoreStep
  cases hf : getEp s.1 episode_id with
  | none => exact h
  | some ep =>
    by_cases hc : ep.status = .ignored
    · simp only [hc, if_true]
      apply artifactInv_updateEpisode _ _ h
      have hnc : ep.status ≠ .cleaned := by simp [hc]
      have hlf := no_artifact_of_not_cleaned s.1 h ep (getEp_mem _ _ _ hf).1 hnc
      unfold artifactRow
      simp [hlf]
    · simp only [hc, if_false]
      exact h

theorem artifactInv_queueStep (dispatchOk : Nat → Bool) (now : Nat) (s : QueueState)
    (episode_id : Nat) (h : artifactInv s.db) :
    artifactInv (queueStep dispatchOk now s episode_id).db := by
  rw [queueStep_db]
  cases hf : getEp s.db episode_id with
  | none => exact h
  | some ep =>
    by_cases hc : ep.status = .discovered ∨ ep.status = .failed
    · simp only [hc, if_true]
      apply artifactInv_updateEpisode _ _ h
      have hnc : ep.status ≠ .cleaned := by rcases hc with h1 | h1 <;> simp [h1]
      have hlf := no_artifact_of_not_cleaned s.db h ep (getEp_mem _ _ _ hf).1 hnc
      unfold artifactRow
      simp [hlf]
    · simp only [hc, if_false]
      exact h

theorem artifactInv_foldl_ignore (now : Nat) (ids : List Nat) :
    ∀ s : DB × Nat, artifactInv s.1 → artifactInv (ids.foldl (ignoreStep now) s).1 := by
  induction ids with
  | nil => intro s h; exact h
  | cons id rest ih => intro s h; exact ih _ (artifactInv_ignoreStep now s id h)

theorem artifactInv_foldl_unignore (now : Nat) (ids : List Nat) :
    ∀ s : DB × Nat, artifactInv s.1 → artifactInv (ids.foldl (unignoreStep now) s).1 := by
  induction ids with
  | nil => intro s h; exact h
  | cons id rest ih => intro s h; exact ih _ (artifactInv_unignoreStep now s id h)

theorem artifactInv_foldl_queue (dispatchOk : Nat → Bool) (now : Nat) (ids : List Nat) :
    ∀ s : QueueState, artifactInv s.db →
      artifactInv (ids.foldl (queueStep dispatchOk now) s).db := by
  induction ids with
  | nil => intro s h; exact h
  | cons id rest ih => intro s h; exact ih _ (artifactInv_queueStep dispatchOk now s id h)

/-- The spec-modelled ingestion only appends episodes with
`local_filename = none` and status `DISCOVERED`, so it preserves the
artifact invariant. -/
theorem artifactInv_ingest_feed (feed_id : Nat) (items : List IngestItem)
    (nextId now : Nat) (db : DB) (h : artifactInv db) :
    artifactInv (ingest_feed feed_id items nextId now db).1 := by
  unfold ingest_feed
  suffices hgen : ∀ (its : List IngestItem) (s : DB × List Episode), artifactInv s.1 →
      artifactInv (its.foldl
        (fun (s : DB × List Episode) item =>
          if s.1.episodes.any (fun e => e.feed_id == feed_id && e.guid == item.guid) then s
          else
            let ep : Episode :=
              { id := nextId + s.2.length, feed_id := feed_id, guid := item.guid,
                status := .discovered, title := item.title,
                audio_url := item.audio_url, local_filename := none,
                created_at := now, updated_at := now }
            ({ s.1 with episodes := s.1.episodes ++ [ep] }, s.2 ++ [ep])) s).1 by
    exact hgen items (db, []) h
  intro its
  induction its with
  | nil => intro s hs; exact hs
  | cons item rest ih =>
    intro s hs
    apply ih
    by_cases hdup : s.1.episodes.any (fun e => e.feed_id == feed_id && e.guid == item.guid)
    · simpa [hdup] using hs
    · simp only [hdup]
      simp only [Bool.false_eq_true, if_false]
      intro e he
      simp only [List.mem_append, List.mem_singleton] at he
      rcases he with he | he
      · exact hs e he
      · subst he; simp

/-! ## Inversion and forward lemmas for the completion callback -/

/-- The episode row as rewritten by a successful completion callback
(`main.py` lines 157–159): `local_filename` set, status `CLEANED`,
fresh `updated_at`. -/
def cleanedEpisode (e : Episode) (p : String) (now : Nat) : Episode :=
  { e with local_filename := some p, status := .cleaned, updated_at := now }

theorem upload_ok_inv (db : DB) (i : Nat) (fn ct : String) (ok : Bool) (now : Nat)
    (db1 : DB) (p : String)
    (h : upload_cleaned_audio db i fn ct ok now = .ok (db1, p)) :
    ∃ e, getEp db i = some e ∧ ¬(fn = "" ∨ ¬ strEndsWith fn ".mp3") ∧ ok = true ∧
      p = localFilenameFor e.feed_id i fn ∧
      db1 = updateEpisode db (cleanedEpisode e p now) ∧
      getEp db1 i = some (cleanedEpisode e p now) := by
  unfold upload_cleaned_audio at h
  split at h
  next => cases h
  next e hf =>
    split at h
    next => cases h
    next hfn =>
      split at h
      next => cases h
      next hok =>
        have hok2 : ok = true := by simpa using hok
        simp only [Except.ok.injEq, Prod.mk.injEq] at h
        obtain ⟨hdb, hp⟩ := h
        subst hp
        refine ⟨e, hf, hfn, hok2, rfl, hdb.symm, ?_⟩
        rw [← hdb]
        have hid : (cleanedEpisode e (localFilenameFor e.feed_id i fn) now).id = i :=
          (getEp_mem _ _ _ hf).2
        have hfind :
            getEp db (cleanedEpisode e (localFilenameFor e.feed_id i fn) now).id = some e := by
          rw [hid]; exact hf
        have hself := getEp_updateEpisode_self db _ e hfind
        rw [hid] at hself
        exact hself

theorem upload_ok_forward (db : DB) (i : Nat) (fn ct : String) (now : Nat) (e : Episode)
    (hf : getEp db i = some e) (hfn : ¬(fn = "" ∨ ¬ strEndsWith fn ".mp3")) :
    upload_cleaned_audio db i fn ct true now =
      .ok (updateEpisode db (cleanedEpisode e (localFilenameFor e.feed_id i fn) now),
           localFilenameFor e.feed_id i fn) := by
  unfold upload_cleaned_audio
  split
  next h2 => rw [hf] at h2; cases h2
  next e2 h2 =>
    rw [hf] at h2
    injection h2 with h3
    subst h3
    rw [if_neg hfn, if_neg (by simp)]
    rfl

/-! ## Concrete fixtures for witnesses and counterexamples -/

/-- A sample feed row. -/
def sampleFeed : Feed :=
  { id := 7, title := "Feed", rss_url := "https://feed.example/rss", auto_process := false,
    created_at := 0, updated_at := 0 }

/-- A sample episode in `DISCOVERED` status with no artifact. -/
def sampleEpisode : Episode :=
  { id := 1, feed_id := 7, guid := "g1", status := .discovered, title := "Ep 1",
    audio_url := "https://feed.example/1.mp3", local_filename := none,
    created_at := 5, updated_at := 5 }

/-- A sample database with one feed and one discovered episode. -/
def sampleDB : DB := { feeds := [sampleFeed], episodes := [sampleEpisode] }

/-! ## Claim C1 — dispatch failure and the QUEUED status -/

/-- C1 counterexample: with one `DISCOVERED` episode and the broker
unreachable (`dispatchOk` constantly false), `queue_episodes` ends with
the episode in `QUEUED` and no task dispatched — it is not reverted to
`FAILED`, refuting the claim that the dispatching operation reverts the
status on dispatch failure. -/
theorem c1_counterexample :
    (getEp (queue_episodes (fun _ => false) sampleDB [1] 9).db 1).map Episode.status
        = some EpisodeStatus.queued ∧
      (queue_episodes (fun _ => false) sampleDB [1] 9).tasks = [] := by
  decide

/-- C1 (amended): when dispatch onto the work channel fails for an
episode that was in `DISCOVERED` or `FAILED`, `queue_episodes` does not
revert anything: the dispatch exception is caught and only logged, the
transaction commits, and the episode ends the operation in `QUEUED`
with an undelivered message. -/
theorem c1_dispatch_failure_leaves_queued (dispatchOk : Nat → Bool) (db : DB)
    (episode_ids : List Nat) (now i : Nat) (e : Episode)
    (hmem : i ∈ episode_ids) (hf : getEp db i = some e)
    (helig : e.status = .discovered ∨ e.status = .failed)
    (hdisp : dispatchOk i = false) :
    (getEp (queue_episodes dispatchOk db episode_ids now).db i).map Episode.status
      = some EpisodeStatus.queued := by
  unfold queue_episodes
  rw [queue_foldl_eligible dispatchOk now i e helig episode_ids ⟨db, 0, []⟩ hf hmem]
  rfl

theorem c1_dispatch_failure_leaves_queued_witness :
    (getEp (queue_episodes (fun _ => false) sampleDB [1] 3).db 1).map Episode.status
      = some EpisodeStatus.queued :=
  c1_dispatch_failure_leaves_queued (fun _ => false) sampleDB [1] 3 1 sampleEpisode
    (by decide) (by decide) (Or.inl (by decide)) rfl

/-! ## Claim C2 — ignore / un-ignore transitions -/

/-- C2: the ignore/un-ignore transitions cannot be performed by the code
as shipped.  `main.py`'s handlers assign and compare
`EpisodeStatus.IGNORED`, but the enum defined in `models.py` has no
member of that name, so the attribute access raises `AttributeError` at
runtime on any eligible episode.  Evaluated here: the member lookup the
handlers rely on returns `none`, while the members used by their status
guards do exist. -/
theorem c2_ignored_member_missing :
    episodeStatusLookup "IGNORED" = none ∧
      episodeStatusLookup "DISCOVERED" = some "discovered" ∧
      episodeStatusLookup "FAILED" = some "failed" := by
  decide

/-! ## Claim C3 — state-machine closure -/

/-- C3 counterexample: `upload_cleaned_audio` performs no status check.
The sample episode is `DISCOVERED` — neither `QUEUED` nor `PROCESSING`
— yet a successful completion callback advances it to `CLEANED`: the
illegal transition is not rejected. -/
theorem c3_counterexample :
    sampleEpisode.status = EpisodeStatus.discovered ∧
      (getEp (applyOp (Op.upload 1 "done.mp3" "audio/mpeg" true 9) sampleDB) 1).map
          Episode.status = some EpisodeStatus.cleaned := by
  decide

/-- C3 (amended): the guarded operations behave as the transition table
says — queue and ignore reject an episode whose status is not
`DISCOVERED`/`FAILED`, un-ignore rejects one not `IGNORED`, each
leaving the row unchanged — but the successful completion callback
performs no status check at all: it advances any existing episode to
`CLEANED` from whatever status it currently has. -/
theorem c3_transition_guards :
    (∀ (dispatchOk : Nat → Bool) (db : DB) (ids : List Nat) (now i : Nat) (e : Episode),
        getEp db i = some e → ¬(e.status = .discovered ∨ e.status = .failed) →
        getEp (queue_episodes dispatchOk db ids now).db i = some e)
  ∧ (∀ (db : DB) (ids : List Nat) (now i : Nat) (e : Episode),
        getEp db i = some e → ¬(e.status = .discovered ∨ e.status = .failed) →
        getEp (ignore_episodes db ids now).1 i = some e)
  ∧ (∀ (db : DB) (ids : List Nat) (now i : Nat) (e : Episode),
        getEp db i = some e → e.status ≠ .ignored →
        getEp (unignore_episodes db ids now).1 i = some e)
  ∧ (∀ (db : DB) (i : Nat) (fn ct : String) (ok : Bool) (now : Nat) (db1 : DB) (p : String),
        upload_cleaned_audio db i fn ct ok now = .ok (db1, p) →
        (getEp db1 i).map Episode.status = some EpisodeStatus.cleaned) := by
  refine ⟨?_, ?_, ?_, ?_⟩
  · intro dOk db ids now i e hf hs
    exact queue_foldl_not_eligible dOk now i e hs ids ⟨db, 0, []⟩ hf
  · intro db ids now i e hf hs
    exact ignore_foldl_not_eligible now i e hs ids (db, 0) hf
  · intro db ids now i e hf hs
    exact unignore_foldl_not_eligible now i e hs ids (db, 0) hf
  · intro db i fn ct ok now db1 p h
    obtain ⟨e, _, _, _, _, _, hget⟩ := upload_ok_inv db i fn ct ok now db1 p h
    rw [hget]
    rfl

/-- An episode row already in `CLEANED` status, for concrete checks of
the guarded operations. -/
def cleanedSampleEpisode : Episode :=
  { id := 2, feed_id := 7, guid := "g2", status := .cleaned, title := "Ep 2",
    audio_url := "https://feed.example/2.mp3", local_filename := some "7/2_done.mp3",
    created_at := 6, updated_at := 8 }

/-- A database whose single episode is already `CLEANED`. -/
def cleanedDB : DB := { feeds := [sampleFeed], episodes := [cleanedSampleEpisode] }

theorem c3_transition_guards_witness :
    getEp (queue_episodes (fun _ => true) cleanedDB [2] 9).db 2 = some cleanedSampleEpisode ∧
      getEp (ignore_episodes cleanedDB [2] 9).1 2 = some cleanedSampleEpisode ∧
      getEp (unignore_episodes cleanedDB [2] 9).1 2 = some cleanedSampleEpisode ∧
      (getEp (updateEpisode cleanedDB (cleanedEpisode cleanedSampleEpisode "7/2_x.mp3" 9)) 2).map
          Episode.status = some EpisodeStatus.cleaned :=
  ⟨c3_transition_guards.1 (fun _ => true) cleanedDB [2] 9 2 cleanedSampleEpisode
      (by decide) (by decide),
   c3_transition_guards.2.1 cleanedDB [2] 9 2 cleanedSampleEpisode (by decide) (by decide),
   c3_transition_guards.2.2.1 cleanedDB [2] 9 2 cleanedSampleEpisode (by decide) (by decide),
   c3_transition_guards.2.2.2 cleanedDB 2 "x.mp3" "audio/mpeg" true 9
      (updateEpisode cleanedDB (cleanedEpisode cleanedSampleEpisode "7/2_x.mp3" 9))
      "7/2_x.mp3"
      (upload_ok_forward cleanedDB 2 "x.mp3" "audio/mpeg" 9 cleanedSampleEpisode
        (by decide) (by decide))⟩

/-! ## Claim C4 — the artifact invariant -/

/-- C4: every state-changing operation of the manager — feed creation
with its ingestion pass, queue, ignore, un-ignore, the completion
callback and feed deletion — preserves the invariant that an episode's
`local_filename` is set iff its status is `CLEANED`. -/
theorem c4_artifact_invariant (op : Op) (db : DB) (h : artifactInv db) :
    artifactInv (applyOp op db) := by
  cases op with
  | createFeed url md ing fid base now =>
    simp only [applyOp]
    cases hres : create_feed db url md ing fid base now with
    | error e2 => exact h
    | ok r =>
      show artifactInv r.1
      unfold create_feed at hres
      by_cases hdup : db.feeds.any (fun f => f.rss_url == url)
      · rw [if_pos hdup] at hres; cases hres
      · rw [if_neg hdup] at hres
        cases md with
        | none => cases hres
        | some m =>
          cases ing with
          | error u =>
            simp only [Except.ok.injEq] at hres
            rw [← hres]
            intro e he
            exact h e he
          | ok items =>
            simp only [Except.ok.injEq] at hres
            rw [← hres]
            apply artifactInv_ingest_feed
            intro e he
            exact h e he
  | queue dOk ids now =>
    show artifactInv (queue_episodes dOk db ids now).db
    exact artifactInv_foldl_queue dOk now ids ⟨db, 0, []⟩ h
  | ignore ids now =>
    show artifactInv (ignore_episodes db ids now).1
    exact artifactInv_foldl_ignore now ids (db, 0) h
  | unignore ids now =>
    show artifactInv (unignore_episodes db ids now).1
    exact artifactInv_foldl_unignore now ids (db, 0) h
  | upload i fn ct ok now =>
    simp only [applyOp]
    cases hres : upload_cleaned_audio db i fn ct ok now with
    | error e2 => exact h
    | ok r =>
      show artifactInv r.1
      obtain ⟨e, _, _, _, _, hdb1, _⟩ := upload_ok_inv db i fn ct ok now r.1 r.2
        (by rw [hres])
      rw [hdb1]
      exact artifactInv_updateEpisode db _ h (by unfold artifactRow cleanedEpisode; simp)
  | deleteFeed fid =>
    simp only [applyOp]
    cases hres : delete_feed db fid with
    | error e2 => exact h
    | ok r =>
      show artifactInv r.1
      unfold delete_feed at hres
      split at hres
      next => cases hres
      next f hg =>
        simp only [Except.ok.injEq] at hres
        rw [← hres]
        intro e he
        have he2 : e ∈ db.episodes.filter (fun e2 => ¬ e2.feed_id == fid) := he
        exact h e (List.mem_of_mem_filter he2)

theorem c4_artifact_invariant_witness :
    artifactInv sampleDB ∧ artifactInv (applyOp (Op.ignore [1] 4) sampleDB) :=
  ⟨by decide, c4_artifact_invariant (Op.ignore [1] 4) sampleDB (by decide)⟩

/-! ## Claim C5 — idempotent completion callback -/

/-- C5: delivering the same successful completion callback twice for
one episode yields exactly one terminal transition: after the first
delivery the episode is `CLEANED`; the second delivery succeeds (it is
not rejected), echoes the same artifact path, and leaves the status
`CLEANED` and the stored artifact reference exactly as the first
delivery left them. -/
theorem c5_idempotent_callback (db : DB) (i : Nat) (fn ct : String) (n1 n2 : Nat)
    (db1 : DB) (p : String)
    (h : upload_cleaned_audio db i fn ct true n1 = .ok (db1, p)) :
    ∃ db2, upload_cleaned_audio db1 i fn ct true n2 = .ok (db2, p) ∧
      (getEp db1 i).map Episode.status = some EpisodeStatus.cleaned ∧
      (getEp db2 i).map Episode.status = some EpisodeStatus.cleaned ∧
      (getEp db2 i).map Episode.local_filename = some (some p) ∧
      (getEp db2 i).map Episode.local_filename = (getEp db1 i).map Episode.local_filename := by
  obtain ⟨e, hf, hfn, _, hp, hdb1, hget1⟩ := upload_ok_inv db i fn ct true n1 db1 p h
  have hid : e.id = i := (getEp_mem _ _ _ hf).2
  have hfwd := upload_ok_forward db1 i fn ct n2 (cleanedEpisode e p n1) hget1 hfn
  have hpp : localFilenameFor (cleanedEpisode e p n1).feed_id i fn = p := by
    unfold cleanedEpisode
    exact hp.symm
  rw [hpp] at hfwd
  have hXid : (cleanedEpisode (cleanedEpisode e p n1) p n2).id = i := hid
  have hfind2 : getEp db1 (cleanedEpisode (cleanedEpisode e p n1) p n2).id
      = some (cleanedEpisode e p n1) := by
    rw [hXid]; exact hget1
  have hget2 := getEp_updateEpisode_self db1 _ _ hfind2
  rw [hXid] at hget2
  refine ⟨_, hfwd, ?_, ?_, ?_, ?_⟩
  · rw [hget1]; rfl
  · rw [hget2]; rfl
  · rw [hget2]; rfl
  · rw [hget2, hget1]; rfl

/-- The sample database after a first successful completion callback
for episode 1 with file name `x.mp3` at time 6. -/
def sampleDBUploaded : DB :=
  updateEpisode sampleDB (cleanedEpisode sampleEpisode "7/1_x.mp3" 6)

theorem c5_idempotent_callback_witness :
    ∃ db2, upload_cleaned_audio sampleDBUploaded 1 "x.mp3" "audio/mpeg" true 8 =
        .ok (db2, "7/1_x.mp3") ∧
      (getEp sampleDBUploaded 1).map Episode.status = some EpisodeStatus.cleaned ∧
      (getEp db2 1).map Episode.status = some EpisodeStatus.cleaned ∧
      (getEp db2 1).map Episode.local_filename = some (some "7/1_x.mp3") ∧
      (getEp db2 1).map Episode.local_filename =
        (getEp sampleDBUploaded 1).map Episode.local_filename :=
  c5_idempotent_callback sampleDB 1 "x.mp3" "audio/mpeg" 6 8 sampleDBUploaded "7/1_x.mp3"
    (upload_ok_forward sampleDB 1 "x.mp3" "audio/mpeg" 6 sampleEpisode
      (by decide) (by decide))

/-! ## Claim C6 — artifact validation at the completion callback -/

/-- C6 counterexample: an upload whose media type is `text/plain` but
whose name ends in `.mp3` is accepted — the handler never inspects the
media type, refuting "accepted only when its media type is
audio/mpeg". -/
theorem c6_counterexample :
    (upload_cleaned_audio sampleDB 1 "evil.mp3" "text/plain" true 9).isOk = true := by
  decide

/-- C6 (amended): for an existing episode the completion callback gates
the upload on the file name alone: the result never depends on the
media type; a name not ending in `.mp3` is rejected as an invalid
artifact with no state change; a name ending in `.mp3` (with a
successful write) is accepted whatever the media type is. -/
theorem c6_filename_gate (db : DB) (i : Nat) (fn ct ct2 : String) (ok : Bool) (now : Nat) :
    (upload_cleaned_audio db i fn ct ok now = upload_cleaned_audio db i fn ct2 ok now)
  ∧ (∀ e, getEp db i = some e → ¬ strEndsWith fn ".mp3" →
      upload_cleaned_audio db i fn ct ok now = .error .notMp3)
  ∧ (¬ strEndsWith fn ".mp3" → applyOp (Op.upload i fn ct ok now) db = db)
  ∧ (∀ e, getEp db i = some e → ¬(fn = "" ∨ ¬ strEndsWith fn ".mp3") →
      (upload_cleaned_audio db i fn ct true now).isOk = true) := by
  refine ⟨rfl, ?_, ?_, ?_⟩
  · intro e hf hfn
    unfold upload_cleaned_audio
    split
    next h2 => rw [hf] at h2; cases h2
    next e2 h2 =>
      rw [if_pos (Or.inr hfn)]
  · intro hfn
    simp only [applyOp]
    cases hres : upload_cleaned_audio db i fn ct ok now with
    | error e2 => rfl
    | ok r =>
      obtain ⟨e, _, hfn2, _, _, _, _⟩ :=
        upload_ok_inv db i fn ct ok now r.1 r.2 (by rw [hres])
      exact absurd (Or.inr hfn) hfn2
  · intro e hf hfn
    rw [upload_ok_forward db i fn ct now e hf hfn]
    rfl

theorem c6_filename_gate_witness :
    (upload_cleaned_audio sampleDB 1 "song.txt" "audio/mpeg" true 9 =
        upload_cleaned_audio sampleDB 1 "song.txt" "text/plain" true 9)
  ∧ upload_cleaned_audio sampleDB 1 "song.txt" "audio/mpeg" true 9 =
      .error UploadError.notMp3
  ∧ applyOp (Op.upload 1 "song.txt" "audio/mpeg" true 9) sampleDB = sampleDB
  ∧ (upload_cleaned_audio sampleDB 1 "take.mp3" "video/mp4" true 9).isOk = true :=
  ⟨(c6_filename_gate sampleDB 1 "song.txt" "audio/mpeg" "text/plain" true 9).1,
   (c6_filename_gate sampleDB 1 "song.txt" "audio/mpeg" "text/plain" true 9).2.1
      sampleEpisode (by decide) (by decide),
   (c6_filename_gate sampleDB 1 "song.txt" "audio/mpeg" "text/plain" true 9).2.2.1
      (by decide),
   (c6_filename_gate sampleDB 1 "take.mp3" "video/mp4" "audio/mpeg" true 9).2.2.2
      sampleEpisode (by decide) (by decide)⟩

/-! ## Claim C7 — worker retry policy -/

theorem runFrom_trace_bounds (f : Nat → AttemptOutcome) :
    ∀ (k r : Nat), max_retries - r ≤ k →
      (runFrom f r).delays.length ≤ max_retries - r ∧
      (∀ d ∈ (runFrom f r).delays, d = retry_countdown) ∧
      ((runFrom f r).result = .failed → 1 ≤ (runFrom f r).failedEvents) ∧
      (runFrom f r).attempts = (runFrom f r).delays.length + 1 := by
  intro k
  induction k with
  | zero =>
    intro r hr
    have hmr : max_retries = 3 := rfl
    unfold runFrom
    cases hf : f r with
    | success => simp
    | otherError => simp
    | networkError =>
      rw [dif_neg (by omega)]
      simp
  | succ n ih =>
    intro r hr
    unfold runFrom
    cases hf : f r with
    | success => simp
    | otherError => simp
    | networkError =>
      by_cases hlt : r < max_retries
      · rw [dif_pos hlt]
        obtain ⟨h1, h2, h3, h4⟩ := ih (r + 1) (by omega)
        refine ⟨?_, ?_, ?_, ?_⟩
        · simp only [List.length_cons]
          omega
        · intro d hd
          simp only [List.mem_cons] at hd
          rcases hd with rfl | hd
          · rfl
          · exact h2 d hd
        · intro _
          simp
        · simp only [List.length_cons]
          omega
      · rw [dif_neg hlt]
        simp

theorem runFrom_all_network (f : Nat → AttemptOutcome) (h : ∀ r, f r = .networkError) :
    runFrom f 0 =
      { attempts := 4, delays := [60, 60, 60], failedEvents := 4, result := .failed } := by
  have h3 : runFrom f 3 =
      { attempts := 1, delays := [], failedEvents := 1, result := .failed } := by
    unfold runFrom
    simp only [h]
    rw [dif_neg (by decide)]
  have h2 : runFrom f 2 =
      { attempts := 2, delays := [60], failedEvents := 2, result := .failed } := by
    unfold runFrom
    simp only [h]
    rw [dif_pos (by decide), h3]
    rfl
  have h1 : runFrom f 1 =
      { attempts := 3, delays := [60, 60], failedEvents := 3, result := .failed } := by
    unfold runFrom
    simp only [h]
    rw [dif_pos (by decide), h2]
    rfl
  unfold runFrom
  simp only [h]
  rw [dif_pos (by decide), h1]
  rfl

/-- C7: on a network-class error `process_episode` retries the entire
task with a fixed 60-second countdown up to the fixed bound of 3
retries — a run all of whose attempts hit network errors makes 4
attempts with backoffs `[60, 60, 60]` and then surfaces failure — while
a non-network error fails immediately with no retry and no backoff;
every backoff ever taken equals 60, at most 3 retries happen, and on
every failing run at least one `(0, "failed")` progress event was
reported (each failing attempt, including the final one before giving
up, reports one). -/
theorem c7_retry_policy (f : Nat → AttemptOutcome) :
    ((∀ r, f r = .networkError) →
        process_episode_run f =
          { attempts := 4, delays := [60, 60, 60], failedEvents := 4, result := .failed })
  ∧ (f 0 = .otherError →
        process_episode_run f =
          { attempts := 1, delays := [], failedEvents := 1, result := .failed })
  ∧ (process_episode_run f).delays.length ≤ max_retries
  ∧ (∀ d ∈ (process_episode_run f).delays, d = retry_countdown)
  ∧ ((process_episode_run f).result = .failed →
        1 ≤ (process_episode_run f).failedEvents) := by
  obtain ⟨h1, h2, h3, _⟩ := runFrom_trace_bounds f max_retries 0 (by omega)
  refine ⟨runFrom_all_network f, ?_, by simpa using h1, h2, h3⟩
  intro h0
  unfold process_episode_run runFrom
  simp only [h0]

theorem c7_retry_policy_witness :
    process_episode_run (fun _ => AttemptOutcome.networkError) =
        { attempts := 4, delays := [60, 60, 60], failedEvents := 4, result := .failed } ∧
      process_episode_run (fun _ => AttemptOutcome.otherError) =
        { attempts := 1, delays := [], failedEvents := 1, result := .failed } :=
  ⟨(c7_retry_policy (fun _ => AttemptOutcome.networkError)).1 (fun _ => rfl),
   (c7_retry_policy (fun _ => AttemptOutcome.otherError)).2.1 rfl⟩

/-! ## Claim C8 — the published syndication document -/

/-- C8: for an unknown feed id the publisher fails with 404; for a known
feed the document's items are exactly one item per episode of the feed
in `CLEANED` status with an artifact path set — episodes lacking the
path are skipped even though `CLEANED` — each item carrying the
enclosure URL derived from the artifact path (`rssItemFor`), taken from
the query ordered newest-created first. -/
theorem c8_feed_rss (db : DB) (feed_id : Nat) :
    (getFeed db feed_id = none → get_feed_rss db feed_id = .error ())
  ∧ (∀ feed, getFeed db feed_id = some feed →
      get_feed_rss db feed_id =
        .ok ((rssEpisodes db feed_id).filterMap
          (fun e => e.local_filename.map (rssItemFor e))))
  ∧ (∀ items, get_feed_rss db feed_id = .ok items → ∀ it,
      it ∈ items ↔ ∃ e, e ∈ db.episodes ∧ e.feed_id = feed_id ∧
        e.status = .cleaned ∧ ∃ fn, e.local_filename = some fn ∧ it = rssItemFor e fn)
  ∧ (rssEpisodes db feed_id).Pairwise (fun a b => b.created_at ≤ a.created_at) := by
  refine ⟨?_, ?_, ?_, ?_⟩
  · intro hnone
    unfold get_feed_rss
    rw [hnone]
  · intro feed hsome
    unfold get_feed_rss
    rw [hsome]
  · intro items hok it
    unfold get_feed_rss at hok
    split at hok
    next => cases hok
    next f hsome =>
      simp only [Except.ok.injEq] at hok
      subst hok
      simp only [List.mem_filterMap, rssEpisodes, List.mem_mergeSort, List.mem_filter,
        Bool.and_eq_true, beq_iff_eq, Option.map_eq_some']
      constructor
      · rintro ⟨e, ⟨he, hfid, hst⟩, fn, hfn, hit⟩
        exact ⟨e, he, hfid, hst, fn, hfn, hit.symm⟩
      · rintro ⟨e, he, hfid, hst, fn, hfn, hit⟩
        exact ⟨e, ⟨he, hfid, hst⟩, fn, hfn, hit.symm⟩
  · unfold rssEpisodes
    refine List.Pairwise.imp ?_ (List.sorted_mergeSort ?_ ?_
      (db.episodes.filter (fun e => e.feed_id == feed_id && e.status == EpisodeStatus.cleaned)))
    · intro a b hab
      simpa using hab
    · intro a b c hab hbc
      simp only [decide_eq_true_eq] at *
      omega
    · intro a b
      simp only [Bool.or_eq_true, decide_eq_true_eq]
      omega

theorem c8_feed_rss_witness :
    get_feed_rss { feeds := [], episodes := [] } 7 = .error () ∧
      get_feed_rss cleanedDB 7 =
        .ok ((rssEpisodes cleanedDB 7).filterMap
          (fun e => e.local_filename.map (rssItemFor e))) ∧
      (rssItemFor cleanedSampleEpisode "7/2_done.mp3" ∈
        (rssEpisodes cleanedDB 7).filterMap
          (fun e => e.local_filename.map (rssItemFor e))) :=
  ⟨(c8_feed_rss { feeds := [], episodes := [] } 7).1 rfl,
   (c8_feed_rss cleanedDB 7).2.1 sampleFeed (by decide),
   (((c8_feed_rss cleanedDB 7).2.2.1
        ((rssEpisodes cleanedDB 7).filterMap (fun e => e.local_filename.map (rssItemFor e)))
        ((c8_feed_rss cleanedDB 7).2.1 sampleFeed (by decide))
        (rssItemFor cleanedSampleEpisode "7/2_done.mp3")).mpr
      ⟨cleanedSampleEpisode, by decide, rfl, rfl, "7/2_done.mp3", rfl, rfl⟩)⟩

/-! ## Claim C9 — broadcast isolation -/

theorem broadcast_loop_spec (sendOk : Nat → Bool) :
    ∀ (conns acc1 acc2 : List Nat),
      conns.foldl
        (fun (acc : List Nat × List Nat) c =>
          if sendOk c then (acc.1 ++ [c], acc.2) else (acc.1, acc.2 ++ [c]))
        (acc1, acc2)
      = (acc1 ++ conns.filter (fun c => sendOk c),
         acc2 ++ conns.filter (fun c => !(sendOk c))) := by
  intro conns
  induction conns with
  | nil =>
    intro acc1 acc2
    simp
  | cons c rest ih =>
    intro acc1 acc2
    cases hc : sendOk c with
    | true =>
      simp only [List.foldl_cons, hc, if_true, List.filter_cons, Bool.not_true, ih]
      simp
    | false =>
      simp only [List.foldl_cons, hc, if_false, List.filter_cons, Bool.not_false, ih]
      simp

theorem broadcast_delivered (sendOk : Nat → Bool) (conns : List Nat) :
    (broadcast sendOk conns).delivered = conns.filter (fun c => sendOk c) := by
  simp only [broadcast]
  rw [broadcast_loop_spec]
  simp

theorem broadcast_active (sendOk : Nat → Bool) (conns : List Nat) :
    (broadcast sendOk conns).active_connections =
      conns.filter (fun c => ¬ (conns.filter (fun c2 => !(sendOk c2))).contains c) := by
  simp only [broadcast]
  rw [broadcast_loop_spec]
  simp

/-- C9: publishing an event is total (every per-connection exception is
caught inside the loop) and a failed send removes exactly the failing
observers: the delivered set is precisely the subscribed observers
whose send succeeds — so one observer's failure never prevents delivery
to another — and the surviving connection set is precisely the
subscribed observers whose send succeeded. -/
theorem c9_broadcast_isolation (sendOk : Nat → Bool) (conns : List Nat) :
    ((broadcast sendOk conns).delivered = conns.filter (fun c => sendOk c))
  ∧ (∀ c ∈ conns, sendOk c = true → c ∈ (broadcast sendOk conns).delivered)
  ∧ (∀ c, c ∈ (broadcast sendOk conns).active_connections ↔
        c ∈ conns ∧ sendOk c = true) := by
  refine ⟨broadcast_delivered sendOk conns, ?_, ?_⟩
  · intro c hc hok
    rw [broadcast_delivered]
    simp [List.mem_filter, hc, hok]
  · intro c
    rw [broadcast_active]
    simp only [List.mem_filter, decide_eq_true_eq]
    constructor
    · rintro ⟨hc, hnc⟩
      refine ⟨hc, ?_⟩
      by_contra hbad
      exact hnc (by simp [List.mem_filter, hc, Bool.eq_false_iff.mpr hbad])
    · rintro ⟨hc, hok⟩
      refine ⟨hc, ?_⟩
      intro hcon
      simp only [List.contains_iff_exists_mem_beq, List.mem_filter, beq_iff_eq] at hcon
      obtain ⟨c2, ⟨_, hq⟩, hceq⟩ := hcon
      subst hceq
      rw [hok] at hq
      cases hq

theorem c9_broadcast_isolation_witness :
    ((broadcast (fun c => c != 2) [1, 2, 3]).delivered =
        [1, 2, 3].filter (fun c => c != 2))
  ∧ 3 ∈ (broadcast (fun c => c != 2) [1, 2, 3]).delivered
  ∧ (2 ∈ (broadcast (fun c => c != 2) [1, 2, 3]).active_connections ↔
        2 ∈ [1, 2, 3] ∧ ((2 : Nat) != 2) = true) :=
  ⟨(c9_broadcast_isolation (fun c => c != 2) [1, 2, 3]).1,
   (c9_broadcast_isolation (fun c => c != 2) [1, 2, 3]).2.1 3 (by decide) (by decide),
   (c9_broadcast_isolation (fun c => c != 2) [1, 2, 3]).2.2 2⟩

/-! ## Claim C10 — feed creation despite ingestion failure -/

/-- C10: when metadata extraction succeeds but the auto-ingestion pass
raises, `create_feed` still succeeds: the feed row — title suffixed
with " (Purified)" — is committed and returned, the ingestion exception
is only logged, and the episodes table is untouched, so the new feed
has zero episodes. -/
theorem c10_feed_survives_ingest_failure (db : DB) (rss_url : String) (m : FeedMeta)
    (newFeedId newEpisodeBase now : Nat)
    (hdup : db.feeds.any (fun f => f.rss_url == rss_url) = false) :
    ∃ feed, create_feed db rss_url (some m) (.error ()) newFeedId newEpisodeBase now
        = .ok ({ feeds := db.feeds ++ [feed], episodes := db.episodes }, feed)
      ∧ feed.title = m.title ++ " (Purified)"
      ∧ feed.rss_url = rss_url
      ∧ feed.id = newFeedId := by
  refine ⟨{ id := newFeedId, title := m.title ++ " (Purified)", rss_url := rss_url,
            auto_process := false, created_at := now, updated_at := now },
          ?_, rfl, rfl, rfl⟩
  unfold create_feed
  rw [if_neg (by simp [hdup])]

theorem c10_feed_survives_ingest_failure_witness :
    ∃ feed, create_feed sampleDB "https://new.example/rss"
        (some { title := "T", description := none, image_url := none, author := none })
        (.error ()) 8 100 9
        = .ok ({ feeds := sampleDB.feeds ++ [feed], episodes := sampleDB.episodes }, feed)
      ∧ feed.title = "T" ++ " (Purified)"
      ∧ feed.rss_url = "https://new.example/rss"
      ∧ feed.id = 8 :=
  c10_feed_survives_ingest_failure sampleDB "https://new.example/rss"
    { title := "T", description := none, image_url := none, author := none }
    8 100 9 (by decide)

end PurePod
